import Mathlib

/-!
Verification development for the cascade war simulator
(`scripts/war_simulator.py`).  The simulator state (a pandas `Series` row)
is embedded as an association list from feature names to rational values;
the three pre-trained models are embedded as opaque predictor functions
over the restricted, reordered feature inputs; the day-by-day simulation
loop `WarSimulator.run_simulation` is embedded as a recursive function on
that state, returning `Except` for the exceptions the Python code can
raise and `Option` for the `None` it returns on an already-captured city.
-/

namespace WarSim

/-- A feature vector: one city's state, a mapping from feature name to a
numeric value (embeds a pandas `Series` row restricted to its numeric
columns). -/
abbrev FeatureVector := List (String × ℚ)

namespace FeatureVector

/-- Lookup of a feature by name (first match), `none` when absent. -/
def get? : FeatureVector → String → Option ℚ
  | [], _ => none
  | (k, v) :: rest, key => if k = key then some v else get? rest key

/-- Assignment `series[key] = v`: replaces the value of an existing label,
appends the pair when the label is absent (pandas `Series.__setitem__`). -/
def set : FeatureVector → String → ℚ → FeatureVector
  | [], key, v => [(key, v)]
  | (k, w) :: rest, key, v =>
      if k = key then (k, v) :: rest else (k, w) :: set rest key v

end FeatureVector

/-- Errors the simulator can raise: `keyError` embeds the pandas `KeyError`
raised when labels are absent from the row (it carries the missing labels,
in requested order); `cityNotFound` embeds the `ValueError` raised by
`get_city_state` for an unknown city. -/
inductive SimError where
  | keyError (missing : List String)
  | cityNotFound (city : String)
deriving DecidableEq, Repr

/-- Single-label read `series[key]`: raises `KeyError` when the label is
absent. -/
def FeatureVector.item (fv : FeatureVector) (key : String) : Except SimError ℚ :=
  match fv.get? key with
  | some v => .ok v
  | none => .error (.keyError [key])

/-- Multi-label selection `series[feats]` followed by `.astype(float)`:
returns the values in the order of `feats`, or raises a `KeyError` listing
every requested label absent from the row. -/
def adapt (fv : FeatureVector) (feats : List String) : Except SimError (List ℚ) :=
  let missing := feats.filter (fun f => (fv.get? f).isNone)
  if missing.isEmpty then
    .ok (feats.map (fun f => (fv.get? f).getD 0))
  else
    .error (.keyError missing)

/-- The three pre-trained models, treated as opaque predictors: each
declares its ordered required feature names and maps the restricted input
row to a numeric output (`model_A.predict`, `model_B.predict`, and the
positive-class column of `model_C.predict_proba`). -/
structure Predictors where
  featsA : List String
  predictA : List ℚ → ℚ
  featsB : List String
  predictB : List ℚ → ℚ
  featsC : List String
  predictProbaC : List ℚ → ℚ

/-- City status recorded in a daily history entry. -/
inductive Status where
  | free
  | occupied
deriving DecidableEq, Repr

/-- Round half to even on ℚ, the tie-breaking rule of Python `round`. -/
def roundHalfEven (q : ℚ) : ℤ :=
  let f := ⌊q⌋
  let r := q - f
  if r < 1 / 2 then f
  else if 1 / 2 < r then f + 1
  else if f % 2 = 0 then f else f + 1

/-- Python `round(q, d)`: round to `d` decimal digits, ties to even. -/
def pyRound (q : ℚ) (d : ℕ) : ℚ :=
  (roundHalfEven (q * 10 ^ d) : ℚ) / 10 ^ d

/-- One entry of the simulation history, as built at the end of each loop
iteration of `run_simulation` (fields are rounded exactly as the source
rounds them). -/
structure DailySnapshot where
  day : ℕ
  dist_to_front : ℚ
  delta_real : ℚ
  encirclement : ℚ
  prob_capture : ℚ
  status : Status
deriving DecidableEq, Repr

/-- Result of one loop iteration: the mutated state, the history entry, and
the raw (unrounded) capture probability that drove the break decision. -/
structure DayResult where
  newState : FeatureVector
  snap : DailySnapshot
  prob : ℚ
deriving Repr

/-- One iteration of the simulation loop body (lines 62–107 of
`war_simulator.py`): predict the front delta on the pre-update state, apply
the scenario modifier, clamp the new distance at 0, write the four momentum
and distance fields, predict and clip the encirclement score, write it,
then obtain the capture probability on the fully updated state and build
the history entry with the 0.5-threshold status. -/
def simulateDay (p : Predictors) (modifier : ℚ) (st : FeatureVector) (day : ℕ) :
    Except SimError DayResult :=
  match adapt st p.featsA with
  | .error e => .error e
  | .ok inputA =>
    let pred_delta := p.predictA inputA
    let adjusted_delta := pred_delta * modifier
    match st.item "dist_to_front_m" with
    | .error e => .error e
    | .ok dist0 =>
      let new_dist := max 0 (dist0 - adjusted_delta)
      match st.item "momentum_7d" with
      | .error e => .error e
      | .ok m7 =>
        match st.item "momentum_30d" with
        | .error e => .error e
        | .ok m30 =>
          let st1 := ((st.set "delta_dist_daily" adjusted_delta).set
              "momentum_7d" (m7 * (9 / 10) + adjusted_delta * (1 / 10))).set
              "momentum_30d" (m30 * (95 / 100) + adjusted_delta * (5 / 100))
          let st2 := st1.set "dist_to_front_m" new_dist
          match adapt st2 p.featsB with
          | .error e => .error e
          | .ok inputB =>
            let pred_enc := min (max (p.predictB inputB) 0) 1
            let st3 := st2.set "encirclement_score" pred_enc
            match adapt st3 p.featsC with
            | .error e => .error e
            | .ok inputC =>
              let prob_capture := p.predictProbaC inputC
              .ok { newState := st3
                    snap := { day := day
                              dist_to_front := pyRound new_dist 0
                              delta_real := pyRound adjusted_delta 1
                              encirclement := pyRound pred_enc 3
                              prob_capture := pyRound prob_capture 3
                              status := if prob_capture > 1 / 2 then .occupied else .free }
                    prob := prob_capture }

/-- The simulation loop `for day in range(1, days + 1)` with the
capture-break: runs `remaining` further days starting at day number `day`,
accumulating history entries, and stops right after the first entry whose
capture probability exceeds 0.5. -/
def simLoop (p : Predictors) (modifier : ℚ) :
    FeatureVector → ℕ → ℕ → Except SimError (List DailySnapshot)
  | _, _, 0 => .ok []
  | st, day, remaining + 1 =>
    match simulateDay p modifier st day with
    | .error e => .error e
    | .ok r =>
      if r.prob > 1 / 2 then .ok [r.snap]
      else
        match simLoop p modifier r.newState (day + 1) remaining with
        | .error e => .error e
        | .ok rest => .ok (r.snap :: rest)

/-- Scenario table of `run_simulation` with its `.get(scenario, 1.0)`
fallback. -/
def scenarioModifier (scenario : String) : ℚ :=
  if scenario = "conservative" then 1 / 2
  else if scenario = "inertial" then 1
  else if scenario = "aggressive" then 3 / 2
  else 1

/-- One historical record of the dataset: city name, date (as a totally
ordered timestamp) and the numeric feature columns. -/
structure CityRow where
  name : String
  date : ℤ
  fv : FeatureVector
deriving DecidableEq, Repr

/-- Tail of `get_city_state`: `sort_values('date').iloc[-1]` on a nonempty
selection — the stable ascending sort puts the rows of maximal date last,
in original order, so the result is the last row whose date is maximal. -/
def latestFrom (best : CityRow) : List CityRow → CityRow
  | [] => best
  | r :: rs => latestFrom (if best.date ≤ r.date then r else best) rs

/-- `WarSimulator.get_city_state`: select the rows of the city, raise when
there are none, otherwise return the latest record. -/
def get_city_state (df : List CityRow) (city : String) : Except SimError CityRow :=
  match df.filter (fun r => r.name = city) with
  | [] => .error (.cityNotFound city)
  | r0 :: rest => .ok (latestFrom r0 rest)

/-- `WarSimulator.run_simulation`: look up the scenario modifier and the
city's latest state; return `none` (Python `None`) when the city is already
captured; otherwise run the day loop from day 1 and return its history. -/
def run_simulation (p : Predictors) (df : List CityRow) (city : String)
    (days : ℕ) (scenario : String) : Except SimError (Option (List DailySnapshot)) :=
  let modifier := scenarioModifier scenario
  match get_city_state df city with
  | .error e => .error e
  | .ok row =>
    match row.fv.item "is_captured" with
    | .error e => .error e
    | .ok c =>
      if c = 1 then .ok none
      else
        match simLoop p modifier row.fv 1 days with
        | .error e => .error e
        | .ok hist => .ok (some hist)

/-- The state after `n` loop iterations from an anchor state entered at
day 1 (the day-`n` iteration is the one numbered `n` in the history). -/
def stateAfter (p : Predictors) (modifier : ℚ) (st : FeatureVector) :
    ℕ → Except SimError FeatureVector
  | 0 => .ok st
  | n + 1 =>
    match stateAfter p modifier st n with
    | .error e => .error e
    | .ok s =>
      match simulateDay p modifier s (n + 1) with
      | .error e => .error e
      | .ok r => .ok r.newState

/-- The raw capture probability the loop computes on day `k` (1-based) when
started from anchor state `st` on day 1. -/
def captureProbOnDay (p : Predictors) (modifier : ℚ) (st : FeatureVector)
    (k : ℕ) : Except SimError ℚ :=
  match stateAfter p modifier st (k - 1) with
  | .error e => .error e
  | .ok s =>
    match simulateDay p modifier s k with
    | .error e => .error e
    | .ok r => .ok r.prob

theorem roundHalfEven_intCast (n : ℤ) : roundHalfEven (n : ℚ) = n := by
  norm_num [roundHalfEven]

theorem le_roundHalfEven_of_int_le {q : ℚ} {n : ℤ} (h : (n : ℚ) ≤ q) :
    (n : ℤ) ≤ roundHalfEven q := by
  have hf : n ≤ ⌊q⌋ := Int.le_floor.mpr h
  simp only [roundHalfEven]
  split_ifs <;> omega

theorem roundHalfEven_le_of_le_int {q : ℚ} {n : ℤ} (h : q ≤ (n : ℚ)) :
    roundHalfEven q ≤ n := by
  have hf : ⌊q⌋ ≤ n := by
    have := Int.floor_mono h
    simpa using this
  have hfq : (⌊q⌋ : ℚ) ≤ q := Int.floor_le q
  simp only [roundHalfEven]
  split_ifs with h1 h2 h3
  · exact hf
  · -- here 1/2 < q - ⌊q⌋, so ⌊q⌋ < n and ⌊q⌋ + 1 ≤ n
    rcases lt_or_eq_of_le hf with h' | h'
    · omega
    · exfalso
      rw [h'] at h2
      have : q - (n : ℚ) ≤ 0 := by linarith
      linarith
  · exact hf
  · rcases lt_or_eq_of_le hf with h' | h'
    · omega
    · exfalso
      rw [h'] at h1 h2
      have hq : q - (n : ℚ) = 1 / 2 := by linarith
      have : q ≤ (n : ℚ) := h
      linarith

theorem roundHalfEven_mono {a b : ℚ} (h : a ≤ b) :
    roundHalfEven a ≤ roundHalfEven b := by
  have hfab : ⌊a⌋ ≤ ⌊b⌋ := Int.floor_mono h
  rcases lt_or_eq_of_le hfab with hlt | heq
  · -- different floors: rhe a ≤ ⌊a⌋ + 1 ≤ ⌊b⌋ ≤ rhe b
    have h1 : roundHalfEven a ≤ ⌊a⌋ + 1 := by
      simp only [roundHalfEven]; split_ifs <;> omega
    have h2 : ⌊b⌋ ≤ roundHalfEven b := by
      simp only [roundHalfEven]; split_ifs <;> omega
    omega
  · -- same floor: compare the fractional parts
    have hr : a - ⌊a⌋ ≤ b - ⌊b⌋ := by
      rw [← heq]
      linarith
    simp only [roundHalfEven]
    rw [← heq]
    split_ifs <;> first | omega | linarith

theorem pyRound_nonneg {q : ℚ} (d : ℕ) (h : 0 ≤ q) : 0 ≤ pyRound q d := by
  unfold pyRound
  apply div_nonneg _ (by positivity)
  have : (0 : ℤ) ≤ roundHalfEven (q * 10 ^ d) := by
    have h0 : ((0 : ℤ) : ℚ) ≤ q * 10 ^ d := by positivity
    exact le_roundHalfEven_of_int_le h0
  exact_mod_cast this

theorem pyRound_le_one {q : ℚ} (d : ℕ) (h : q ≤ 1) : pyRound q d ≤ 1 := by
  unfold pyRound
  rw [div_le_one (by positivity)]
  have : roundHalfEven (q * 10 ^ d) ≤ ((10 : ℤ) ^ d) := by
    apply roundHalfEven_le_of_le_int
    push_cast
    nlinarith [pow_pos (show (0:ℚ) < 10 by norm_num) d]
  calc ((roundHalfEven (q * 10 ^ d) : ℤ) : ℚ) ≤ (((10 : ℤ) ^ d : ℤ) : ℚ) := by exact_mod_cast this
    _ = 10 ^ d := by push_cast; ring

theorem pyRound_mono {a b : ℚ} (d : ℕ) (h : a ≤ b) : pyRound a d ≤ pyRound b d := by
  unfold pyRound
  apply div_le_div_of_nonneg_right _ (by positivity)
  · exact_mod_cast roundHalfEven_mono (by nlinarith [pow_pos (show (0:ℚ) < 10 by norm_num) d])

/-- The four stage-2 writes of one simulated day: `delta_dist_daily`, the
two smoothed momenta, then the clamped distance (spec §4.2 stage 2). -/
def momentumWrites (st : FeatureVector) (adjusted_delta new_dist m7 m30 : ℚ) :
    FeatureVector :=
  (((st.set "delta_dist_daily" adjusted_delta).set
      "momentum_7d" (m7 * (9 / 10) + adjusted_delta * (1 / 10))).set
      "momentum_30d" (m30 * (95 / 100) + adjusted_delta * (5 / 100))).set
      "dist_to_front_m" new_dist

/-- Inversion of a successful day step: every intermediate value of the
four-stage pipeline is recovered, in particular that the encirclement
predictor's input is adapted from the state holding all four stage-2
writes, and the capture predictor's input from the state holding, in
addition, the clipped encirclement score. -/
theorem simulateDay_ok_elim {p : Predictors} {modifier : ℚ} {st : FeatureVector}
    {day : ℕ} {r : DayResult} (h : simulateDay p modifier st day = .ok r) :
    ∃ inputA dist0 m7 m30 inputB inputC,
      adapt st p.featsA = .ok inputA ∧
      st.get? "dist_to_front_m" = some dist0 ∧
      st.get? "momentum_7d" = some m7 ∧
      st.get? "momentum_30d" = some m30 ∧
      adapt (momentumWrites st (p.predictA inputA * modifier)
          (max 0 (dist0 - p.predictA inputA * modifier)) m7 m30) p.featsB = .ok inputB ∧
      adapt ((momentumWrites st (p.predictA inputA * modifier)
          (max 0 (dist0 - p.predictA inputA * modifier)) m7 m30).set
          "encirclement_score" (min (max (p.predictB inputB) 0) 1)) p.featsC = .ok inputC ∧
      r = { newState := (momentumWrites st (p.predictA inputA * modifier)
              (max 0 (dist0 - p.predictA inputA * modifier)) m7 m30).set
              "encirclement_score" (min (max (p.predictB inputB) 0) 1)
            snap := { day := day
                      dist_to_front := pyRound (max 0 (dist0 - p.predictA inputA * modifier)) 0
                      delta_real := pyRound (p.predictA inputA * modifier) 1
                      encirclement := pyRound (min (max (p.predictB inputB) 0) 1) 3
                      prob_capture := pyRound (p.predictProbaC inputC) 3
                      status := if p.predictProbaC inputC > 1 / 2 then .occupied else .free }
            prob := p.predictProbaC inputC } := by
  simp only [simulateDay, FeatureVector.item] at h
  cases hA : adapt st p.featsA with
  | error e => simp only [hA] at h; exact Except.noConfusion h
  | ok inputA =>
  simp only [hA] at h
  cases hd0 : st.get? "dist_to_front_m" with
  | none => simp only [hd0] at h; exact Except.noConfusion h
  | some dist0 =>
  simp only [hd0] at h
  cases hm7 : st.get? "momentum_7d" with
  | none => simp only [hm7] at h; exact Except.noConfusion h
  | some m7 =>
  simp only [hm7] at h
  cases hm30 : st.get? "momentum_30d" with
  | none => simp only [hm30] at h; exact Except.noConfusion h
  | some m30 =>
  simp only [hm30] at h
  split at h
  · exact absurd h (by simp)
  next inputB hB =>
    split at h
    · exact absurd h (by simp)
    next inputC hC =>
      cases h
      exact ⟨inputA, dist0, m7, m30, inputB, inputC, rfl, rfl, rfl, rfl, hB, hC, rfl⟩

theorem FeatureVector.get?_set_self (fv : FeatureVector) (k : String) (v : ℚ) :
    (fv.set k v).get? k = some v := by
  induction fv with
  | nil => simp [set, get?]
  | cons hd tl ih =>
    obtain ⟨k', w⟩ := hd
    by_cases h : k' = k <;> simp [set, get?, h, ih]

theorem FeatureVector.get?_set_ne (fv : FeatureVector) (k k' : String) (v : ℚ)
    (h : k ≠ k') : (fv.set k v).get? k' = fv.get? k' := by
  induction fv with
  | nil => simp [set, get?, h]
  | cons hd tl ih =>
    obtain ⟨k'', w⟩ := hd
    by_cases h' : k'' = k
    · subst h'
      simp [set, get?, h]
    · simp only [set, if_neg h']
      by_cases h'' : k'' = k' <;> simp [get?, h'', ih]

/-- A deterministic stub predictor triple: no required features, constant
outputs `a` (front delta), `b` (raw encirclement), `c` (capture
probability). -/
def stubPred (a b c : ℚ) : Predictors :=
  { featsA := [], predictA := fun _ => a
    featsB := [], predictB := fun _ => b
    featsC := [], predictProbaC := fun _ => c }

/-- A small anchor state carrying exactly the fields the loop reads. -/
def anchor0 : FeatureVector :=
  [("dist_to_front_m", 1000), ("momentum_7d", 10), ("momentum_30d", 20),
   ("is_captured", 0), ("encirclement_score", 1 / 4)]

/-- Closed-form evaluation of one day step under a stub predictor triple on
a five-field state. -/
theorem simulateDay_stub (a b c m d m7v m30v ic es : ℚ) (day : ℕ) :
    simulateDay (stubPred a b c) m
      [("dist_to_front_m", d), ("momentum_7d", m7v), ("momentum_30d", m30v),
       ("is_captured", ic), ("encirclement_score", es)] day
    = .ok { newState := [("dist_to_front_m", max 0 (d - a * m)),
              ("momentum_7d", m7v * (9 / 10) + a * m * (1 / 10)),
              ("momentum_30d", m30v * (95 / 100) + a * m * (5 / 100)),
              ("is_captured", ic), ("encirclement_score", min (max b 0) 1),
              ("delta_dist_daily", a * m)]
            snap := { day := day
                      dist_to_front := pyRound (max 0 (d - a * m)) 0
                      delta_real := pyRound (a * m) 1
                      encirclement := pyRound (min (max b 0) 1) 3
                      prob_capture := pyRound c 3
                      status := if c > 1 / 2 then .occupied else .free }
            prob := c } := by
  simp [simulateDay, adapt, stubPred, FeatureVector.item, FeatureVector.get?,
    FeatureVector.set]

/-- Claim C2 (amended): on every successful simulated day the new distance
written into the state equals `max 0 (current − predicted·modifier)`;
whenever the predicted delta is ≥ 0, the modifier is > 0 and the current
distance is ≥ 0, the new distance is ≤ the current distance; the new
distance is ≥ 0 always; and if the current distance is 0 and the adjusted
delta `predicted·modifier` is ≥ 0, the new distance is 0 (for a negative
adjusted delta the code moves the front back out, so the distance becomes
positive again — the unconditional claim fails there). -/
theorem new_distance_clamp {p : Predictors} {modifier : ℚ} {st : FeatureVector}
    {day : ℕ} {r : DayResult} {inputA : List ℚ} {dist0 : ℚ}
    (h : simulateDay p modifier st day = .ok r)
    (hA : adapt st p.featsA = .ok inputA)
    (hd : st.get? "dist_to_front_m" = some dist0) :
    r.newState.get? "dist_to_front_m"
        = some (max 0 (dist0 - p.predictA inputA * modifier)) ∧
    (0 ≤ p.predictA inputA → 0 < modifier → 0 ≤ dist0 →
      max 0 (dist0 - p.predictA inputA * modifier) ≤ dist0) ∧
    0 ≤ max 0 (dist0 - p.predictA inputA * modifier) ∧
    (dist0 = 0 → 0 ≤ p.predictA inputA * modifier →
      max 0 (dist0 - p.predictA inputA * modifier) = 0) := by
  obtain ⟨iA, d0, m7, m30, iB, iC, hA', hd', hm7', hm30', hB, hC, hr⟩ :=
    simulateDay_ok_elim h
  have hiA : iA = inputA := by
    rw [hA] at hA'
    exact (Except.ok.inj hA').symm
  have hd0 : d0 = dist0 := by
    rw [hd] at hd'
    exact (Option.some.inj hd').symm
  subst hiA hd0
  refine ⟨?_, ?_, ?_, ?_⟩
  · rw [hr]
    show ((momentumWrites st _ _ m7 m30).set "encirclement_score" _).get?
      "dist_to_front_m" = _
    rw [FeatureVector.get?_set_ne _ _ _ _ (by decide), momentumWrites,
      FeatureVector.get?_set_self]
  · intro hδ hm hdist
    exact max_le hdist (by nlinarith)
  · exact le_max_left 0 _
  · intro h0 hx
    rw [h0]
    exact max_eq_left (by linarith)

/-- Claim C2 counterexample: with a stub front-dynamics predictor returning
−5 (front moving away) and current distance 0, the day's new distance is 5,
not 0 — refuting "if the current distance is already 0 the new distance is
0 regardless of the predicted delta's sign". -/
theorem clamp_at_zero_counterexample :
    (simulateDay (stubPred (-5) 0 0) 1
        [("dist_to_front_m", 0), ("momentum_7d", 0), ("momentum_30d", 0),
         ("is_captured", 0), ("encirclement_score", 0)] 1).map
      (fun r => r.newState.get? "dist_to_front_m") = .ok (some 5) ∧ (5 : ℚ) ≠ 0 := by
  rw [simulateDay_stub]
  refine ⟨?_, by norm_num⟩
  norm_num
  simp [Except.map, FeatureVector.get?]

/-- Day-1 result of the standard stub run (delta 100, raw encirclement 2,
capture probability 3/10, modifier 1) from `anchor0`, used by witnesses. -/
def W : DayResult :=
  { newState := [("dist_to_front_m", 900), ("momentum_7d", 19), ("momentum_30d", 24),
      ("is_captured", 0), ("encirclement_score", 1), ("delta_dist_daily", 100)]
    snap := { day := 1
              dist_to_front := 900
              delta_real := 100
              encirclement := 1
              prob_capture := 3 / 10
              status := .free }
    prob := 3 / 10 }

theorem W_eval : simulateDay (stubPred 100 2 (3 / 10)) 1 anchor0 1 = .ok W := by
  rw [anchor0, simulateDay_stub]
  norm_num [W, pyRound, roundHalfEven]

theorem adapt_nil (fv : FeatureVector) : adapt fv [] = .ok [] := by
  simp [adapt]

theorem anchor0_dist : anchor0.get? "dist_to_front_m" = some 1000 := by
  simp [anchor0, FeatureVector.get?]

/-- Witness for claim C2's theorem at the standard stub run. -/
theorem new_distance_clamp_witness :
    W.newState.get? "dist_to_front_m"
        = some (max 0 (1000 - (stubPred 100 2 (3 / 10)).predictA [] * 1)) ∧
    (0 ≤ (stubPred 100 2 (3 / 10)).predictA [] → (0 : ℚ) < 1 → (0 : ℚ) ≤ 1000 →
      max 0 (1000 - (stubPred 100 2 (3 / 10)).predictA [] * 1) ≤ 1000) ∧
    (0 : ℚ) ≤ max 0 (1000 - (stubPred 100 2 (3 / 10)).predictA [] * 1) ∧
    ((1000 : ℚ) = 0 → 0 ≤ (stubPred 100 2 (3 / 10)).predictA [] * 1 →
      max 0 (1000 - (stubPred 100 2 (3 / 10)).predictA [] * 1) = 0) :=
  new_distance_clamp W_eval (adapt_nil anchor0) anchor0_dist

/-- Claim C4 (amended): on every simulated day, for arbitrary raw predictor
outputs, the encirclement score recorded in the day's snapshot lies in
[0,1]; the recorded capture probability is the capture predictor's output
rounded verbatim (never clipped), so it lies in [0,1] exactly when the raw
capture output does — which holds for a real classifier but not for an
arbitrary out-of-range stub. -/
theorem snapshot_score_bounds {p : Predictors} {modifier : ℚ} {st : FeatureVector}
    {day : ℕ} {r : DayResult} (h : simulateDay p modifier st day = .ok r) :
    (0 ≤ r.snap.encirclement ∧ r.snap.encirclement ≤ 1) ∧
    r.snap.prob_capture = pyRound r.prob 3 ∧
    (0 ≤ r.prob → r.prob ≤ 1 →
      0 ≤ r.snap.prob_capture ∧ r.snap.prob_capture ≤ 1) := by
  obtain ⟨iA, d0, m7, m30, iB, iC, hA, hd, hm7, hm30, hB, hC, hr⟩ :=
    simulateDay_ok_elim h
  subst hr
  refine ⟨⟨?_, ?_⟩, rfl, ?_⟩
  · exact pyRound_nonneg 3 (le_min (le_max_right _ 0) zero_le_one)
  · exact pyRound_le_one 3 (min_le_right _ 1)
  · intro h0 h1
    exact ⟨pyRound_nonneg 3 h0, pyRound_le_one 3 h1⟩

/-- The one-row repository used by run-level witnesses. -/
def baseDf : List CityRow := [⟨"bakhmut", 3, anchor0⟩]

/-- Claim C4 counterexample: a stub capture predictor returning 1.7 makes
the run record capture probability 1.7 in the day's snapshot — outside
[0,1] — because the code clips only the encirclement score. -/
theorem capture_probability_unclipped_counterexample :
    (run_simulation (stubPred 100 2 (17 / 10)) baseDf "bakhmut" 1 "inertial").map
        (fun h => h.map (fun l => l.map (·.prob_capture))) = .ok (some [17 / 10]) ∧
    ¬ ((17 : ℚ) / 10 ≤ 1) := by
  refine ⟨?_, by norm_num⟩
  have hday := simulateDay_stub 100 2 (17 / 10) 1 1000 10 20 0 (1 / 4) 1
  simp [run_simulation, get_city_state, baseDf, scenarioModifier, latestFrom,
    FeatureVector.item, anchor0, FeatureVector.get?, simLoop, Except.map]
  norm_num [hday, pyRound, roundHalfEven, Except.map]

/-- Witness for claim C4's theorem at the standard stub run. -/
theorem snapshot_score_bounds_witness :
    ((0 ≤ W.snap.encirclement ∧ W.snap.encirclement ≤ 1) ∧
    W.snap.prob_capture = pyRound W.prob 3 ∧
    (0 ≤ W.prob → W.prob ≤ 1 →
      0 ≤ W.snap.prob_capture ∧ W.snap.prob_capture ≤ 1)) :=
  snapshot_score_bounds W_eval

/-- Claim C5: on an anchor whose captured flag is 1 the loop refuses to
start: the run returns the explicit `none` outcome (Python `None`), which
carries zero snapshots, differs from a normal zero-length run `some []`,
and does not depend on the predictors at all (none is invoked). -/
theorem already_captured_refusal {p : Predictors} {df : List CityRow}
    {city : String} {days : ℕ} {scenario : String} {row : CityRow}
    (hrow : get_city_state df city = .ok row)
    (hcap : row.fv.get? "is_captured" = some 1) :
    run_simulation p df city days scenario = .ok none ∧
    (∀ p' : Predictors, run_simulation p' df city days scenario = .ok none) ∧
    (.ok none : Except SimError (Option (List DailySnapshot))) ≠ .ok (some []) := by
  have hone : ∀ p' : Predictors, run_simulation p' df city days scenario = .ok none := by
    intro p'
    unfold run_simulation
    rw [hrow]
    simp [FeatureVector.item, hcap]
  exact ⟨hone p, hone, by simp⟩

/-- A one-row repository whose city is already occupied. -/
def capturedDf : List CityRow := [⟨"melitopol", 1, [("is_captured", 1)]⟩]

theorem capturedDf_lookup :
    get_city_state capturedDf "melitopol" = .ok ⟨"melitopol", 1, [("is_captured", 1)]⟩ := by
  simp [get_city_state, capturedDf, List.filter, latestFrom]

/-- Witness for claim C5's theorem on an occupied city. -/
theorem already_captured_refusal_witness :
    run_simulation (stubPred 0 0 0) capturedDf "melitopol" 60 "inertial" = .ok none ∧
    (.ok none : Except SimError (Option (List DailySnapshot))) ≠ .ok (some []) :=
  ⟨(already_captured_refusal capturedDf_lookup
      (by simp [FeatureVector.get?])).1,
   (@already_captured_refusal (stubPred 0 0 0) capturedDf "melitopol" 60 "inertial"
      ⟨"melitopol", 1, [("is_captured", 1)]⟩ capturedDf_lookup
      (by simp [FeatureVector.get?])).2.2⟩

/-- Claim C8: the scenario table maps conservative to 0.5, inertial to 1
and aggressive to 1.5; any other label silently falls back to modifier 1,
so an unknown label such as blitz makes the whole run behave identically
to inertial. -/
theorem scenario_table_fallback :
    scenarioModifier "conservative" = 1 / 2 ∧
    scenarioModifier "inertial" = 1 ∧
    scenarioModifier "aggressive" = 3 / 2 ∧
    (∀ s : String, s ≠ "conservative" → s ≠ "inertial" → s ≠ "aggressive" →
      scenarioModifier s = 1) ∧
    ∀ (p : Predictors) (df : List CityRow) (city : String) (days : ℕ),
      run_simulation p df city days "blitz" = run_simulation p df city days "inertial" := by
  refine ⟨by simp [scenarioModifier], by simp [scenarioModifier],
    by simp [scenarioModifier], ?_, ?_⟩
  · intro s h1 h2 h3
    simp [scenarioModifier, h1, h2, h3]
  · intro p df city days
    have hmod : scenarioModifier "blitz" = scenarioModifier "inertial" := by
      simp [scenarioModifier]
    unfold run_simulation
    rw [hmod]

/-- Witness for claim C8's theorem: the blitz label gets modifier 1 and a
blitz run equals the inertial run on a concrete repository. -/
theorem scenario_table_fallback_witness :
    scenarioModifier "blitz" = 1 ∧
    run_simulation (stubPred 100 2 (3 / 10)) baseDf "bakhmut" 1 "blitz"
      = run_simulation (stubPred 100 2 (3 / 10)) baseDf "bakhmut" 1 "inertial" :=
  ⟨scenario_table_fallback.2.2.2.1 "blitz" (by decide) (by decide) (by decide),
   scenario_table_fallback.2.2.2.2 _ _ _ _⟩

theorem adapt_missing {fv : FeatureVector} {feats : List String} {f : String}
    (hf : f ∈ feats) (hmiss : fv.get? f = none) :
    f ∈ feats.filter (fun g => (fv.get? g).isNone) ∧
    adapt fv feats
      = .error (.keyError (feats.filter (fun g => (fv.get? g).isNone))) := by
  have hfm : f ∈ feats.filter (fun g => (fv.get? g).isNone) :=
    List.mem_filter.mpr ⟨hf, by simp [hmiss]⟩
  have hne : (feats.filter (fun g => (fv.get? g).isNone)).isEmpty = false := by
    rcases hfilter : feats.filter (fun g => (fv.get? g).isNone) with _ | ⟨a, l⟩
    · rw [hfilter] at hfm
      exact absurd hfm (List.not_mem_nil f)
    · simp [List.isEmpty]
  exact ⟨hfm, by simp [adapt, hne]⟩

theorem simulateDay_error_loop {p : Predictors} {modifier : ℚ} {st : FeatureVector}
    {day : ℕ} {e : SimError} (h : simulateDay p modifier st day = .error e) :
    ∀ n : ℕ, simLoop p modifier st day (n + 1) = .error e := by
  intro n
  simp only [simLoop, h]

theorem simulateDay_stageA_error {p : Predictors} {modifier : ℚ} {st : FeatureVector}
    {day : ℕ} {e : SimError} (hA : adapt st p.featsA = .error e) :
    simulateDay p modifier st day = .error e := by
  simp only [simulateDay, hA]

theorem simulateDay_stageB_error {p : Predictors} {modifier : ℚ} {st : FeatureVector}
    {day : ℕ} {inputA : List ℚ} {dist0 m7 m30 : ℚ} {e : SimError}
    (hA : adapt st p.featsA = .ok inputA)
    (hd : st.get? "dist_to_front_m" = some dist0)
    (hm7 : st.get? "momentum_7d" = some m7)
    (hm30 : st.get? "momentum_30d" = some m30)
    (hB : adapt (momentumWrites st (p.predictA inputA * modifier)
      (max 0 (dist0 - p.predictA inputA * modifier)) m7 m30) p.featsB = .error e) :
    simulateDay p modifier st day = .error e := by
  simp only [momentumWrites] at hB
  simp only [simulateDay, FeatureVector.item, hA, hd, hm7, hm30, hB]

theorem simulateDay_stageC_error {p : Predictors} {modifier : ℚ} {st : FeatureVector}
    {day : ℕ} {inputA : List ℚ} {dist0 m7 m30 : ℚ} {inputB : List ℚ} {e : SimError}
    (hA : adapt st p.featsA = .ok inputA)
    (hd : st.get? "dist_to_front_m" = some dist0)
    (hm7 : st.get? "momentum_7d" = some m7)
    (hm30 : st.get? "momentum_30d" = some m30)
    (hB : adapt (momentumWrites st (p.predictA inputA * modifier)
      (max 0 (dist0 - p.predictA inputA * modifier)) m7 m30) p.featsB = .ok inputB)
    (hC : adapt ((momentumWrites st (p.predictA inputA * modifier)
      (max 0 (dist0 - p.predictA inputA * modifier)) m7 m30).set
      "encirclement_score" (min (max (p.predictB inputB) 0) 1)) p.featsC = .error e) :
    simulateDay p modifier st day = .error e := by
  simp only [momentumWrites] at hB hC
  simp only [simulateDay, FeatureVector.item, hA, hd, hm7, hm30, hB, hC]

/-- Claim C9 (amended): when the feature vector a predictor reads lacks one
of that predictor's required features — the pre-update state for the
front-dynamics role, the state holding the four stage-2 writes for the
encirclement role, and the state holding in addition the new encirclement
score for the capture role — the day fails with the `KeyError` listing
exactly the missing required features (this one among them) and the loop
returns that error for the whole run, so no daily snapshot is emitted for
that day. The error names the features but not the predictor role. -/
theorem missing_feature_fatal {p : Predictors} {modifier : ℚ} {st : FeatureVector}
    {day : ℕ} {f : String} :
    (f ∈ p.featsA → st.get? f = none →
      ∃ missing, f ∈ missing ∧
        simulateDay p modifier st day = .error (.keyError missing) ∧
        ∀ n : ℕ, simLoop p modifier st day (n + 1) = .error (.keyError missing)) ∧
    (∀ inputA dist0 m7 m30,
      adapt st p.featsA = .ok inputA →
      st.get? "dist_to_front_m" = some dist0 →
      st.get? "momentum_7d" = some m7 →
      st.get? "momentum_30d" = some m30 →
      f ∈ p.featsB →
      (momentumWrites st (p.predictA inputA * modifier)
        (max 0 (dist0 - p.predictA inputA * modifier)) m7 m30).get? f = none →
      ∃ missing, f ∈ missing ∧
        simulateDay p modifier st day = .error (.keyError missing) ∧
        ∀ n : ℕ, simLoop p modifier st day (n + 1) = .error (.keyError missing)) ∧
    (∀ inputA dist0 m7 m30 inputB,
      adapt st p.featsA = .ok inputA →
      st.get? "dist_to_front_m" = some dist0 →
      st.get? "momentum_7d" = some m7 →
      st.get? "momentum_30d" = some m30 →
      adapt (momentumWrites st (p.predictA inputA * modifier)
        (max 0 (dist0 - p.predictA inputA * modifier)) m7 m30) p.featsB = .ok inputB →
      f ∈ p.featsC →
      ((momentumWrites st (p.predictA inputA * modifier)
        (max 0 (dist0 - p.predictA inputA * modifier)) m7 m30).set
        "encirclement_score" (min (max (p.predictB inputB) 0) 1)).get? f = none →
      ∃ missing, f ∈ missing ∧
        simulateDay p modifier st day = .error (.keyError missing) ∧
        ∀ n : ℕ, simLoop p modifier st day (n + 1) = .error (.keyError missing)) := by
  refine ⟨?_, ?_, ?_⟩
  · intro hf hmiss
    obtain ⟨hfm, hadapt⟩ := adapt_missing hf hmiss
    refine ⟨p.featsA.filter (fun g => (st.get? g).isNone), hfm, ?_, ?_⟩
    · exact simulateDay_stageA_error hadapt
    · exact simulateDay_error_loop (simulateDay_stageA_error hadapt)
  · intro inputA dist0 m7 m30 hA hd hm7 hm30 hf hmiss
    obtain ⟨hfm, hadapt⟩ := adapt_missing hf hmiss
    refine ⟨_, hfm, ?_, ?_⟩
    · exact simulateDay_stageB_error hA hd hm7 hm30 hadapt
    · exact simulateDay_error_loop (simulateDay_stageB_error hA hd hm7 hm30 hadapt)
  · intro inputA dist0 m7 m30 inputB hA hd hm7 hm30 hB hf hmiss
    obtain ⟨hfm, hadapt⟩ := adapt_missing hf hmiss
    refine ⟨_, hfm, ?_, ?_⟩
    · exact simulateDay_stageC_error hA hd hm7 hm30 hB hadapt
    · exact simulateDay_error_loop (simulateDay_stageC_error hA hd hm7 hm30 hB hadapt)

/-- Predictors with feature `supply_axis` required by the front-dynamics
role only. -/
def pRoleA : Predictors :=
  { featsA := ["supply_axis"], predictA := fun _ => 0
    featsB := [], predictB := fun _ => 0
    featsC := [], predictProbaC := fun _ => 0 }

/-- Predictors with feature `supply_axis` required by the encirclement
role only. -/
def pRoleB : Predictors :=
  { featsA := [], predictA := fun _ => 0
    featsB := ["supply_axis"], predictB := fun _ => 0
    featsC := [], predictProbaC := fun _ => 0 }

/-- Predictors with feature `supply_axis` required by the capture role
only. -/
def pRoleC : Predictors :=
  { featsA := [], predictA := fun _ => 0
    featsB := [], predictB := fun _ => 0
    featsC := ["supply_axis"], predictProbaC := fun _ => 0 }

/-- A state lacking `supply_axis` but carrying the directly-read fields. -/
def stNoAxis : FeatureVector :=
  [("dist_to_front_m", 10), ("momentum_7d", 0), ("momentum_30d", 0),
   ("is_captured", 0), ("encirclement_score", 0)]

/-- Claim C9 counterexample: the same missing feature raised through the
front-dynamics role and through the encirclement role produces the
identical error value, so the error raised by the code cannot identify the
predictor role, refuting that part of the claim. -/
theorem missing_feature_role_counterexample :
    simulateDay pRoleA 1 stNoAxis 1 = .error (.keyError ["supply_axis"]) ∧
    simulateDay pRoleB 1 stNoAxis 1 = .error (.keyError ["supply_axis"]) := by
  constructor
  · simp [simulateDay, adapt, pRoleA, stNoAxis, FeatureVector.get?]
  · simp [simulateDay, adapt, pRoleB, stNoAxis, FeatureVector.item,
      FeatureVector.get?, FeatureVector.set]

/-- Witness for claim C9's theorem: missing `supply_axis` through each of
the three predictor roles on a concrete state. -/
theorem missing_feature_fatal_witness :
    (∃ missing, "supply_axis" ∈ missing ∧
      simulateDay pRoleA 1 stNoAxis 1 = .error (.keyError missing) ∧
      ∀ n : ℕ, simLoop pRoleA 1 stNoAxis 1 (n + 1) = .error (.keyError missing)) ∧
    (∃ missing, "supply_axis" ∈ missing ∧
      simulateDay pRoleB 1 stNoAxis 1 = .error (.keyError missing) ∧
      ∀ n : ℕ, simLoop pRoleB 1 stNoAxis 1 (n + 1) = .error (.keyError missing)) ∧
    (∃ missing, "supply_axis" ∈ missing ∧
      simulateDay pRoleC 1 stNoAxis 1 = .error (.keyError missing) ∧
      ∀ n : ℕ, simLoop pRoleC 1 stNoAxis 1 (n + 1) = .error (.keyError missing)) :=
  ⟨(@missing_feature_fatal pRoleA 1 stNoAxis 1 "supply_axis").1
      (by simp [pRoleA]) (by simp [stNoAxis, FeatureVector.get?]),
   (@missing_feature_fatal pRoleB 1 stNoAxis 1 "supply_axis").2.1
      [] 10 0 0 (adapt_nil stNoAxis)
      (by simp [stNoAxis, FeatureVector.get?])
      (by simp [stNoAxis, FeatureVector.get?])
      (by simp [stNoAxis, FeatureVector.get?])
      (by simp [pRoleB])
      (by simp [momentumWrites, pRoleB, stNoAxis, FeatureVector.set,
        FeatureVector.get?]),
   (@missing_feature_fatal pRoleC 1 stNoAxis 1 "supply_axis").2.2
      [] 10 0 0 []
      (adapt_nil stNoAxis)
      (by simp [stNoAxis, FeatureVector.get?])
      (by simp [stNoAxis, FeatureVector.get?])
      (by simp [stNoAxis, FeatureVector.get?])
      (by simp [adapt, pRoleC])
      (by simp [pRoleC])
      (by simp [momentumWrites, pRoleC, stNoAxis, FeatureVector.set,
        FeatureVector.get?])⟩

theorem latestFrom_mem (best : CityRow) (rs : List CityRow) :
    latestFrom best rs ∈ best :: rs := by
  induction rs generalizing best with
  | nil => simp [latestFrom]
  | cons r rs ih =>
    rw [latestFrom]
    by_cases hle : best.date ≤ r.date
    · rw [if_pos hle]
      rcases List.mem_cons.mp (ih r) with h | h
      · simp [h]
      · simp [h]
    · rw [if_neg hle]
      rcases List.mem_cons.mp (ih best) with h | h
      · simp [h]
      · simp [h]

theorem latestFrom_date (best : CityRow) (rs : List CityRow) :
    best.date ≤ (latestFrom best rs).date ∧
    ∀ r ∈ rs, r.date ≤ (latestFrom best rs).date := by
  induction rs generalizing best with
  | nil => simp [latestFrom]
  | cons r rs ih =>
    rw [latestFrom]
    obtain ⟨h1, h2⟩ := ih (if best.date ≤ r.date then r else best)
    have hbest : best.date ≤ (if best.date ≤ r.date then r else best).date := by
      by_cases hle : best.date ≤ r.date <;> simp [hle]
    have hr : r.date ≤ (if best.date ≤ r.date then r else best).date := by
      by_cases hle : best.date ≤ r.date
      · simp [hle]
      · simp only [if_neg hle]
        omega
    refine ⟨le_trans hbest h1, ?_⟩
    intro r' hr'
    rcases List.mem_cons.mp hr' with h | h
    · subst h
      exact le_trans hr h1
    · exact h2 r' h

/-- Claim C10: looking up a city with no records fails with the
city-not-found error and the simulation returns that error without
starting; otherwise the lookup returns a record of that city, present in
the repository, whose date is maximal among the city's records. -/
theorem city_lookup_latest {df : List CityRow} {city : String} :
    (df.filter (fun r => r.name = city) = [] →
      get_city_state df city = .error (.cityNotFound city) ∧
      ∀ (p : Predictors) (days : ℕ) (scenario : String),
        run_simulation p df city days scenario = .error (.cityNotFound city)) ∧
    (∀ r0 rest, df.filter (fun r => r.name = city) = r0 :: rest →
      ∃ row, get_city_state df city = .ok row ∧ row.name = city ∧ row ∈ df ∧
        ∀ r ∈ df, r.name = city → r.date ≤ row.date) := by
  constructor
  · intro hempty
    have hget : get_city_state df city = .error (.cityNotFound city) := by
      unfold get_city_state
      rw [hempty]
    refine ⟨hget, ?_⟩
    intro p days scenario
    unfold run_simulation
    rw [hget]
  · intro r0 rest hfilter
    have hget : get_city_state df city = .ok (latestFrom r0 rest) := by
      unfold get_city_state
      rw [hfilter]
    refine ⟨latestFrom r0 rest, hget, ?_, ?_, ?_⟩
    · have hmem : latestFrom r0 rest ∈ df.filter (fun r => r.name = city) := by
        rw [hfilter]
        exact latestFrom_mem r0 rest
      have := List.mem_filter.mp hmem
      simpa using this.2
    · have hmem : latestFrom r0 rest ∈ df.filter (fun r => r.name = city) := by
        rw [hfilter]
        exact latestFrom_mem r0 rest
      exact (List.mem_filter.mp hmem).1
    · intro r hr hname
      have hrf : r ∈ df.filter (fun r => r.name = city) :=
        List.mem_filter.mpr ⟨hr, by simp [hname]⟩
      rw [hfilter] at hrf
      obtain ⟨h1, h2⟩ := latestFrom_date r0 rest
      rcases List.mem_cons.mp hrf with h | h
      · exact h ▸ h1
      · exact h2 r h

/-- A three-row repository with two records for city a, dates 1 and 4. -/
def df2 : List CityRow :=
  [⟨"avdiivka", 1, [("is_captured", 0)]⟩, ⟨"soledar", 5, []⟩,
   ⟨"avdiivka", 4, [("is_captured", 1)]⟩]

/-- Witness for claim C10's theorem: on `df2`, city avdiivka resolves to
its date-4 record, and an unknown city fails the whole run with the
city-not-found error. -/
theorem city_lookup_latest_witness :
    (∃ row, get_city_state df2 "avdiivka" = .ok row ∧ row.name = "avdiivka" ∧
      row ∈ df2 ∧ ∀ r ∈ df2, r.name = "avdiivka" → r.date ≤ row.date) ∧
    (get_city_state df2 "kupiansk" = .error (.cityNotFound "kupiansk") ∧
      ∀ (p : Predictors) (days : ℕ) (scenario : String),
        run_simulation p df2 "kupiansk" days scenario
          = .error (.cityNotFound "kupiansk")) :=
  ⟨(@city_lookup_latest df2 "avdiivka").2
      ⟨"avdiivka", 1, [("is_captured", 0)]⟩ [⟨"avdiivka", 4, [("is_captured", 1)]⟩]
      (by simp [df2]),
   (@city_lookup_latest df2 "kupiansk").1 (by simp [df2])⟩

/-- The five feature names the loop body writes each day. -/
def mutatedKeys : List String :=
  ["delta_dist_daily", "momentum_7d", "momentum_30d", "dist_to_front_m",
   "encirclement_score"]

theorem newState_frame {p : Predictors} {modifier : ℚ} {st : FeatureVector}
    {day : ℕ} {r : DayResult} (h : simulateDay p modifier st day = .ok r) :
    ∀ k, k ∉ mutatedKeys → r.newState.get? k = st.get? k := by
  obtain ⟨iA, d0, m7, m30, iB, iC, _, _, _, _, _, _, hr⟩ := simulateDay_ok_elim h
  subst hr
  intro k hk
  simp only [mutatedKeys, List.mem_cons, List.not_mem_nil, or_false, not_or] at hk
  obtain ⟨h1, h2, h3, h4, h5⟩ := hk
  show ((momentumWrites st _ _ m7 m30).set "encirclement_score" _).get? k = st.get? k
  rw [FeatureVector.get?_set_ne _ _ _ _ (Ne.symm h5), momentumWrites,
    FeatureVector.get?_set_ne _ _ _ _ (Ne.symm h4),
    FeatureVector.get?_set_ne _ _ _ _ (Ne.symm h3),
    FeatureVector.get?_set_ne _ _ _ _ (Ne.symm h2),
    FeatureVector.get?_set_ne _ _ _ _ (Ne.symm h1)]

theorem stateAfter_frame {p : Predictors} {modifier : ℚ} {anchor : FeatureVector} :
    ∀ n s', stateAfter p modifier anchor n = .ok s' →
      ∀ k, k ∉ mutatedKeys → s'.get? k = anchor.get? k := by
  intro n
  induction n with
  | zero =>
    intro s' h k _
    have : anchor = s' := Except.ok.inj h
    rw [← this]
  | succ n ih =>
    intro s' h k hk
    unfold stateAfter at h
    cases hs : stateAfter p modifier anchor n with
    | error e => simp only [hs] at h; exact Except.noConfusion h
    | ok s =>
      simp only [hs] at h
      cases hr : simulateDay p modifier s (n + 1) with
      | error e => simp only [hr] at h; exact Except.noConfusion h
      | ok r =>
        simp only [hr] at h
        have hs' : s' = r.newState := (Except.ok.inj h).symm
        rw [hs', newState_frame hr k hk]
        exact ih s hs k hk

/-- Claim C6: on every simulated day the loop writes only the five fields
`delta_dist_daily`, `momentum_7d`, `momentum_30d`, `dist_to_front_m`,
`encirclement_score`; every other feature — in particular `is_captured`
and `pct_occupied` — keeps its value, both across one day step and across
any number of loop iterations from the anchor, so the state's captured
flag is never set even on the day the city is declared captured. -/
theorem loop_frame_effect {p : Predictors} {modifier : ℚ} {st : FeatureVector}
    {day : ℕ} {r : DayResult} (h : simulateDay p modifier st day = .ok r) :
    (∀ k, k ∉ mutatedKeys → r.newState.get? k = st.get? k) ∧
    r.newState.get? "is_captured" = st.get? "is_captured" ∧
    r.newState.get? "pct_occupied" = st.get? "pct_occupied" ∧
    (∀ n s', stateAfter p modifier st n = .ok s' →
      ∀ k, k ∉ mutatedKeys → s'.get? k = st.get? k) := by
  have hstep := newState_frame h
  exact ⟨hstep, hstep _ (by decide), hstep _ (by decide),
    fun n s' hs => stateAfter_frame n s' hs⟩

/-- Witness for claim C6's theorem at the standard stub run. -/
theorem loop_frame_effect_witness :
    (∀ k, k ∉ mutatedKeys → W.newState.get? k = anchor0.get? k) ∧
    W.newState.get? "is_captured" = anchor0.get? "is_captured" ∧
    W.newState.get? "pct_occupied" = anchor0.get? "pct_occupied" ∧
    (∀ n s', stateAfter (stubPred 100 2 (3 / 10)) 1 anchor0 n = .ok s' →
      ∀ k, k ∉ mutatedKeys → s'.get? k = anchor0.get? k) :=
  loop_frame_effect W_eval

/-- Claim C1: one simulated day is exactly the three-stage pipeline in
order — the front-dynamics predictor reads the pre-update state; then the
four writes (`delta_dist_daily ← adjusted`, `momentum_7d ← 0.9·old +
0.1·adjusted`, `momentum_30d ← 0.95·old + 0.05·adjusted`,
`dist_to_front_m ← new distance`) complete before the encirclement
predictor's input is adapted; then the clipped encirclement score is
written before the capture predictor's input is adapted, and the final
state and snapshot are those of the staged pipeline. -/
theorem stage_order_decomposition {p : Predictors} {modifier : ℚ}
    {st : FeatureVector} {day : ℕ} {r : DayResult}
    (h : simulateDay p modifier st day = .ok r) :
    ∃ inputA dist0 m7 m30 inputB inputC,
      adapt st p.featsA = .ok inputA ∧
      st.get? "dist_to_front_m" = some dist0 ∧
      st.get? "momentum_7d" = some m7 ∧
      st.get? "momentum_30d" = some m30 ∧
      adapt (momentumWrites st (p.predictA inputA * modifier)
          (max 0 (dist0 - p.predictA inputA * modifier)) m7 m30) p.featsB = .ok inputB ∧
      adapt ((momentumWrites st (p.predictA inputA * modifier)
          (max 0 (dist0 - p.predictA inputA * modifier)) m7 m30).set
          "encirclement_score" (min (max (p.predictB inputB) 0) 1)) p.featsC = .ok inputC ∧
      r = { newState := (momentumWrites st (p.predictA inputA * modifier)
              (max 0 (dist0 - p.predictA inputA * modifier)) m7 m30).set
              "encirclement_score" (min (max (p.predictB inputB) 0) 1)
            snap := { day := day
                      dist_to_front := pyRound (max 0 (dist0 - p.predictA inputA * modifier)) 0
                      delta_real := pyRound (p.predictA inputA * modifier) 1
                      encirclement := pyRound (min (max (p.predictB inputB) 0) 1) 3
                      prob_capture := pyRound (p.predictProbaC inputC) 3
                      status := if p.predictProbaC inputC > 1 / 2 then .occupied else .free }
            prob := p.predictProbaC inputC } :=
  simulateDay_ok_elim h

/-- Witness for claim C1's theorem at the standard stub run. -/
theorem stage_order_decomposition_witness :
    ∃ inputA dist0 m7 m30 inputB inputC,
      adapt anchor0 (stubPred 100 2 (3 / 10)).featsA = .ok inputA ∧
      anchor0.get? "dist_to_front_m" = some dist0 ∧
      anchor0.get? "momentum_7d" = some m7 ∧
      anchor0.get? "momentum_30d" = some m30 ∧
      adapt (momentumWrites anchor0 ((stubPred 100 2 (3 / 10)).predictA inputA * 1)
          (max 0 (dist0 - (stubPred 100 2 (3 / 10)).predictA inputA * 1)) m7 m30)
          (stubPred 100 2 (3 / 10)).featsB = .ok inputB ∧
      adapt ((momentumWrites anchor0 ((stubPred 100 2 (3 / 10)).predictA inputA * 1)
          (max 0 (dist0 - (stubPred 100 2 (3 / 10)).predictA inputA * 1)) m7 m30).set
          "encirclement_score" (min (max ((stubPred 100 2 (3 / 10)).predictB inputB) 0) 1))
          (stubPred 100 2 (3 / 10)).featsC = .ok inputC ∧
      W = { newState := (momentumWrites anchor0 ((stubPred 100 2 (3 / 10)).predictA inputA * 1)
              (max 0 (dist0 - (stubPred 100 2 (3 / 10)).predictA inputA * 1)) m7 m30).set
              "encirclement_score" (min (max ((stubPred 100 2 (3 / 10)).predictB inputB) 0) 1)
            snap := { day := 1
                      dist_to_front := pyRound (max 0 (dist0 - (stubPred 100 2 (3 / 10)).predictA inputA * 1)) 0
                      delta_real := pyRound ((stubPred 100 2 (3 / 10)).predictA inputA * 1) 1
                      encirclement := pyRound (min (max ((stubPred 100 2 (3 / 10)).predictB inputB) 0) 1) 3
                      prob_capture := pyRound ((stubPred 100 2 (3 / 10)).predictProbaC inputC) 3
                      status := if (stubPred 100 2 (3 / 10)).predictProbaC inputC > 1 / 2
                        then .occupied else .free }
            prob := (stubPred 100 2 (3 / 10)).predictProbaC inputC } :=
  stage_order_decomposition W_eval

theorem snap_status {p : Predictors} {m : ℚ} {st : FeatureVector} {day : ℕ}
    {r : DayResult} (h : simulateDay p m st day = .ok r) :
    r.snap.status = if r.prob > 1 / 2 then Status.occupied else Status.free := by
  obtain ⟨iA, d0, m7, m30, iB, iC, _, _, _, _, _, _, hr⟩ := simulateDay_ok_elim h
  subst hr
  rfl

theorem snap_day {p : Predictors} {m : ℚ} {st : FeatureVector} {day : ℕ}
    {r : DayResult} (h : simulateDay p m st day = .ok r) : r.snap.day = day := by
  obtain ⟨iA, d0, m7, m30, iB, iC, _, _, _, _, _, _, hr⟩ := simulateDay_ok_elim h
  subst hr
  rfl

theorem captureProbOnDay_elim {p : Predictors} {m : ℚ} {anchor : FeatureVector}
    {k : ℕ} {q : ℚ} (h : captureProbOnDay p m anchor k = .ok q) :
    ∃ s r, stateAfter p m anchor (k - 1) = .ok s ∧
      simulateDay p m s k = .ok r ∧ r.prob = q := by
  unfold captureProbOnDay at h
  cases hs : stateAfter p m anchor (k - 1) with
  | error e => simp only [hs] at h; exact Except.noConfusion h
  | ok s =>
    simp only [hs] at h
    cases hr : simulateDay p m s k with
    | error e => simp only [hr] at h; exact Except.noConfusion h
    | ok r =>
      simp only [hr] at h
      exact ⟨s, r, rfl, hr, Except.ok.inj h⟩

theorem stateAfter_succ_of {p : Predictors} {m : ℚ} {anchor : FeatureVector}
    {d : ℕ} {s : FeatureVector} {r : DayResult} (hd : 1 ≤ d)
    (hs : stateAfter p m anchor (d - 1) = .ok s)
    (hr : simulateDay p m s d = .ok r) :
    stateAfter p m anchor d = .ok r.newState := by
  obtain ⟨d', rfl⟩ : ∃ d', d = d' + 1 := ⟨d - 1, (Nat.succ_pred_eq_of_pos hd).symm⟩
  rw [show d' + 1 - 1 = d' from rfl] at hs
  simp only [stateAfter, hs, hr]

/-- If the capture probability stays ≤ 1/2 on each of the `n` days
`d, …, d+n−1` of the trace, the loop from the day-`d` state runs all `n`
days and every emitted entry is FREE with consecutive day numbers. -/
theorem simLoop_all_free {p : Predictors} {m : ℚ} {anchor : FeatureVector} :
    ∀ (n d : ℕ) (s : FeatureVector), 1 ≤ d →
      stateAfter p m anchor (d - 1) = .ok s →
      (∀ j, d ≤ j → j < d + n →
        ∃ q, captureProbOnDay p m anchor j = .ok q ∧ q ≤ 1 / 2) →
      ∃ hist, simLoop p m s d n = .ok hist ∧ hist.length = n ∧
        hist.map (·.day) = List.range' d n ∧
        ∀ snap ∈ hist, snap.status = .free := by
  intro n
  induction n with
  | zero =>
    intro d s hd hs hj
    exact ⟨[], rfl, rfl, rfl, by simp⟩
  | succ n ih =>
    intro d s hd hs hj
    obtain ⟨q, hq, hqle⟩ := hj d le_rfl (by omega)
    obtain ⟨s', r, hs', hr, hprob⟩ := captureProbOnDay_elim hq
    have hss : s = s' := by
      rw [hs] at hs'
      exact Except.ok.inj hs'
    subst hss
    have hnotcap : ¬ (r.prob > 1 / 2) := by rw [hprob]; linarith
    obtain ⟨hist', hloop', hlen', hdays', hfree'⟩ :=
      ih (d + 1) r.newState (by omega)
        (by rw [show d + 1 - 1 = d from rfl]; exact stateAfter_succ_of hd hs hr)
        (fun j hj1 hj2 => hj j (by omega) (by omega))
    refine ⟨r.snap :: hist', ?_, by simp [hlen'], ?_, ?_⟩
    · simp only [simLoop, hr, if_neg hnotcap, hloop']
    · simp [hdays', snap_day hr, List.range']
    · intro snap hsnap
      rcases List.mem_cons.mp hsnap with hh | hh
      · rw [hh, snap_status hr, if_neg hnotcap]
      · exact hfree' snap hh

/-- If the capture probability first exceeds 1/2 on trace day `k`, with
`d ≤ k` within the remaining horizon `n`, the loop from the day-`d` state
stops exactly at day `k`: per-day entries `d, …, k`, all FREE except the
last, which is OCCUPIED. -/
theorem simLoop_capture {p : Predictors} {m : ℚ} {anchor : FeatureVector} :
    ∀ (n d : ℕ) (s : FeatureVector) (k : ℕ), 1 ≤ d → d ≤ k → k < d + n →
      stateAfter p m anchor (d - 1) = .ok s →
      (∀ j, d ≤ j → j < k →
        ∃ q, captureProbOnDay p m anchor j = .ok q ∧ q ≤ 1 / 2) →
      (∃ q, captureProbOnDay p m anchor k = .ok q ∧ q > 1 / 2) →
      ∃ hist, simLoop p m s d n = .ok hist ∧ hist.length = k - d + 1 ∧
        hist.map (·.day) = List.range' d (k - d + 1) ∧
        ∃ pre lastSnap, hist = pre ++ [lastSnap] ∧ lastSnap.status = .occupied ∧
          ∀ x ∈ pre, x.status = .free := by
  intro n
  induction n with
  | zero =>
    intro d s k hd hdk hkn
    omega
  | succ n ih =>
    intro d s k hd hdk hkn hs hfree hcap
    by_cases hdk' : d = k
    · subst hdk'
      obtain ⟨q, hq, hqgt⟩ := hcap
      obtain ⟨s', r, hs', hr, hprob⟩ := captureProbOnDay_elim hq
      have hss : s = s' := by
        rw [hs] at hs'
        exact Except.ok.inj hs'
      subst hss
      have hcapb : r.prob > 1 / 2 := by rw [hprob]; exact hqgt
      refine ⟨[r.snap], ?_, by simp, ?_, [], r.snap, rfl, ?_, by simp⟩
      · simp only [simLoop, hr, if_pos hcapb]
      · simp [snap_day hr, List.range']
      · rw [snap_status hr, if_pos hcapb]
    · have hdk2 : d < k := lt_of_le_of_ne hdk hdk'
      obtain ⟨q, hq, hqle⟩ := hfree d le_rfl hdk2
      obtain ⟨s', r, hs', hr, hprob⟩ := captureProbOnDay_elim hq
      have hss : s = s' := by
        rw [hs] at hs'
        exact Except.ok.inj hs'
      subst hss
      have hnotcap : ¬ (r.prob > 1 / 2) := by rw [hprob]; linarith
      obtain ⟨hist', hloop', hlen', hdays', pre', last', hsplit', hocc', hfree''⟩ :=
        ih (d + 1) r.newState k (by omega) (by omega) (by omega)
          (by rw [show d + 1 - 1 = d from rfl]; exact stateAfter_succ_of hd hs hr)
          (fun j hj1 hj2 => hfree j (by omega) hj2) hcap
      refine ⟨r.snap :: hist', ?_, by simp [hlen']; omega, ?_, r.snap :: pre', last',
        by rw [hsplit']; rfl, hocc', ?_⟩
      · simp only [simLoop, hr, if_neg hnotcap, hloop']
      · have hrange : k - d + 1 = (k - (d + 1) + 1) + 1 := by omega
        rw [hrange, List.range']
        simp [hdays', snap_day hr]
      · intro x hx
        rcases List.mem_cons.mp hx with hh | hh
        · rw [hh, snap_status hr, if_neg hnotcap]
        · exact hfree'' x hh

/-- On a non-captured anchor the run is the loop's history wrapped in
`some`. -/
theorem run_simulation_loop {p : Predictors} {df : List CityRow} {city : String}
    {days : ℕ} {scenario : String} {row : CityRow} {c : ℚ}
    (hrow : get_city_state df city = .ok row)
    (hcap : row.fv.get? "is_captured" = some c) (hc : c ≠ 1) :
    run_simulation p df city days scenario
      = (simLoop p (scenarioModifier scenario) row.fv 1 days).map some := by
  unfold run_simulation
  rw [hrow]
  simp only [FeatureVector.item, hcap]
  rw [if_neg hc]
  cases hsl : simLoop p (scenarioModifier scenario) row.fv 1 days <;>
    simp [Except.map]

/-- Claim C3: for a run started on a non-captured anchor with horizon
≥ 1: if the trace's capture probability first exceeds 0.5 on day k ≤
horizon, the returned run has exactly k snapshots for days 1..k, all FREE
except the last, which is OCCUPIED, and no snapshot for any later day; if
the probability never exceeds 0.5 through the horizon, the run has exactly
`days` snapshots for days 1..days, all FREE. -/
theorem termination_exactness {p : Predictors} {df : List CityRow} {city : String}
    {days : ℕ} {scenario : String} {row : CityRow} {c : ℚ}
    (hrow : get_city_state df city = .ok row)
    (hcap : row.fv.get? "is_captured" = some c) (hc : c ≠ 1) (_hdays : 1 ≤ days) :
    (∀ k, 1 ≤ k → k ≤ days →
      (∀ j, 1 ≤ j → j < k →
        ∃ q, captureProbOnDay p (scenarioModifier scenario) row.fv j = .ok q ∧
          q ≤ 1 / 2) →
      (∃ q, captureProbOnDay p (scenarioModifier scenario) row.fv k = .ok q ∧
        q > 1 / 2) →
      ∃ hist, run_simulation p df city days scenario = .ok (some hist) ∧
        hist.length = k ∧ hist.map (·.day) = List.range' 1 k ∧
        ∃ pre lastSnap, hist = pre ++ [lastSnap] ∧ lastSnap.status = .occupied ∧
          ∀ x ∈ pre, x.status = .free) ∧
    ((∀ j, 1 ≤ j → j ≤ days →
        ∃ q, captureProbOnDay p (scenarioModifier scenario) row.fv j = .ok q ∧
          q ≤ 1 / 2) →
      ∃ hist, run_simulation p df city days scenario = .ok (some hist) ∧
        hist.length = days ∧ hist.map (·.day) = List.range' 1 days ∧
        ∀ x ∈ hist, x.status = .free) := by
  have hlink := @run_simulation_loop p df city days scenario row c hrow hcap hc
  constructor
  · intro k hk1 hk2 hfree hcapk
    obtain ⟨hist, hloop, hlen, hdaysmap, hdecomp⟩ :=
      simLoop_capture days 1 row.fv k le_rfl hk1 (by omega) rfl
        (fun j h1 h2 => hfree j h1 h2) hcapk
    have hk : k - 1 + 1 = k := by omega
    refine ⟨hist, by rw [hlink, hloop]; rfl, by omega, ?_, hdecomp⟩
    rw [hdaysmap, hk]
  · intro hfree
    obtain ⟨hist, hloop, hlen, hdaysmap, hfree'⟩ :=
      simLoop_all_free days 1 row.fv le_rfl rfl
        (fun j h1 h2 => hfree j h1 (by omega))
    exact ⟨hist, by rw [hlink, hloop]; rfl, hlen, hdaysmap, hfree'⟩

/-- Witness for claim C3's theorem on a one-day stub run with capture
probability 0.7. -/
theorem termination_exactness_witness :
    (∀ k, 1 ≤ k → k ≤ 1 →
      (∀ j, 1 ≤ j → j < k →
        ∃ q, captureProbOnDay (stubPred 0 0 (7 / 10)) (scenarioModifier "inertial")
          anchor0 j = .ok q ∧ q ≤ 1 / 2) →
      (∃ q, captureProbOnDay (stubPred 0 0 (7 / 10)) (scenarioModifier "inertial")
        anchor0 k = .ok q ∧ q > 1 / 2) →
      ∃ hist, run_simulation (stubPred 0 0 (7 / 10)) baseDf "bakhmut" 1 "inertial"
          = .ok (some hist) ∧
        hist.length = k ∧ hist.map (·.day) = List.range' 1 k ∧
        ∃ pre lastSnap, hist = pre ++ [lastSnap] ∧ lastSnap.status = .occupied ∧
          ∀ x ∈ pre, x.status = .free) ∧
    ((∀ j, 1 ≤ j → j ≤ 1 →
        ∃ q, captureProbOnDay (stubPred 0 0 (7 / 10)) (scenarioModifier "inertial")
          anchor0 j = .ok q ∧ q ≤ 1 / 2) →
      ∃ hist, run_simulation (stubPred 0 0 (7 / 10)) baseDf "bakhmut" 1 "inertial"
          = .ok (some hist) ∧
        hist.length = 1 ∧ hist.map (·.day) = List.range' 1 1 ∧
        ∀ x ∈ hist, x.status = .free) :=
  @termination_exactness (stubPred 0 0 (7 / 10)) baseDf "bakhmut" 1 "inertial"
    ⟨"bakhmut", 3, anchor0⟩ 0
    (by simp [get_city_state, baseDf, latestFrom])
    (by simp [anchor0, FeatureVector.get?])
    (by norm_num) le_rfl

theorem simulateDay_const_dist {p : Predictors} {c m : ℚ} {st : FeatureVector}
    {day : ℕ} {r : DayResult} {d : ℚ} (hstub : ∀ l, p.predictA l = c)
    (h : simulateDay p m st day = .ok r)
    (hd : st.get? "dist_to_front_m" = some d) :
    r.newState.get? "dist_to_front_m" = some (max 0 (d - c * m)) ∧
    r.snap.dist_to_front = pyRound (max 0 (d - c * m)) 0 := by
  obtain ⟨iA, d0, m7, m30, iB, iC, hA, hd', hm7, hm30, hB, hC, hr⟩ :=
    simulateDay_ok_elim h
  have hdd : d0 = d := by
    rw [hd] at hd'
    exact (Option.some.inj hd').symm
  subst hdd
  rw [hstub iA] at hr
  constructor
  · rw [hr]
    show ((momentumWrites st _ _ m7 m30).set "encirclement_score" _).get?
      "dist_to_front_m" = _
    rw [FeatureVector.get?_set_ne _ _ _ _ (by decide), momentumWrites,
      FeatureVector.get?_set_self]
  · rw [hr]

/-- Lockstep comparison of two stub runs with a constant non-negative
front delta: the run with the larger modifier keeps a day-by-day distance
no larger than the other run's, as long as both runs last. -/
theorem simLoop_dist_compare {p : Predictors} {c : ℚ}
    (hstub : ∀ l, p.predictA l = c) (hc : 0 ≤ c) {m₁ m₂ : ℚ} (hm : m₂ ≤ m₁) :
    ∀ (n day : ℕ) (s₁ s₂ : FeatureVector) (h₁ h₂ : List DailySnapshot) (d₁ d₂ : ℚ),
      s₁.get? "dist_to_front_m" = some d₁ →
      s₂.get? "dist_to_front_m" = some d₂ → d₁ ≤ d₂ →
      simLoop p m₁ s₁ day n = .ok h₁ → simLoop p m₂ s₂ day n = .ok h₂ →
      ∀ i (hi1 : i < h₁.length) (hi2 : i < h₂.length),
        (h₁.get ⟨i, hi1⟩).dist_to_front ≤ (h₂.get ⟨i, hi2⟩).dist_to_front := by
  intro n
  induction n with
  | zero =>
    intro day s₁ s₂ h₁ h₂ d₁ d₂ hd₁ hd₂ hdle hl₁ hl₂ i hi1 hi2
    have hnil : h₁ = [] := (Except.ok.inj hl₁).symm
    subst hnil
    exact absurd hi1 (by simp)
  | succ n ih =>
    intro day s₁ s₂ h₁ h₂ d₁ d₂ hd₁ hd₂ hdle hl₁ hl₂ i hi1 hi2
    simp only [simLoop] at hl₁ hl₂
    cases hr₁ : simulateDay p m₁ s₁ day with
    | error e => simp only [hr₁] at hl₁; exact Except.noConfusion hl₁
    | ok r₁ =>
    simp only [hr₁] at hl₁
    cases hr₂ : simulateDay p m₂ s₂ day with
    | error e => simp only [hr₂] at hl₂; exact Except.noConfusion hl₂
    | ok r₂ =>
    simp only [hr₂] at hl₂
    obtain ⟨hn₁, hs₁⟩ := simulateDay_const_dist hstub hr₁ hd₁
    obtain ⟨hn₂, hs₂⟩ := simulateDay_const_dist hstub hr₂ hd₂
    have hndle : max 0 (d₁ - c * m₁) ≤ max 0 (d₂ - c * m₂) :=
      max_le_max le_rfl (by nlinarith)
    have hsnaple : r₁.snap.dist_to_front ≤ r₂.snap.dist_to_front := by
      rw [hs₁, hs₂]
      exact pyRound_mono 0 hndle
    by_cases hc₁ : r₁.prob > 1 / 2
    · rw [if_pos hc₁] at hl₁
      have h₁e : h₁ = [r₁.snap] := (Except.ok.inj hl₁).symm
      subst h₁e
      have hi0 : i = 0 := by
        simp only [List.length_singleton] at hi1
        omega
      subst hi0
      by_cases hc₂ : r₂.prob > 1 / 2
      · rw [if_pos hc₂] at hl₂
        have h₂e : h₂ = [r₂.snap] := (Except.ok.inj hl₂).symm
        subst h₂e
        exact hsnaple
      · rw [if_neg hc₂] at hl₂
        cases hrec₂ : simLoop p m₂ r₂.newState (day + 1) n with
        | error e => simp only [hrec₂] at hl₂; exact Except.noConfusion hl₂
        | ok rest₂ =>
          simp only [hrec₂] at hl₂
          have h₂e : h₂ = r₂.snap :: rest₂ := (Except.ok.inj hl₂).symm
          subst h₂e
          exact hsnaple
    · rw [if_neg hc₁] at hl₁
      cases hrec₁ : simLoop p m₁ r₁.newState (day + 1) n with
      | error e => simp only [hrec₁] at hl₁; exact Except.noConfusion hl₁
      | ok rest₁ =>
      simp only [hrec₁] at hl₁
      have h₁e : h₁ = r₁.snap :: rest₁ := (Except.ok.inj hl₁).symm
      subst h₁e
      by_cases hc₂ : r₂.prob > 1 / 2
      · rw [if_pos hc₂] at hl₂
        have h₂e : h₂ = [r₂.snap] := (Except.ok.inj hl₂).symm
        subst h₂e
        have hi0 : i = 0 := by
          simp only [List.length_singleton] at hi2
          omega
        subst hi0
        exact hsnaple
      · rw [if_neg hc₂] at hl₂
        cases hrec₂ : simLoop p m₂ r₂.newState (day + 1) n with
        | error e => simp only [hrec₂] at hl₂; exact Except.noConfusion hl₂
        | ok rest₂ =>
        simp only [hrec₂] at hl₂
        have h₂e : h₂ = r₂.snap :: rest₂ := (Except.ok.inj hl₂).symm
        subst h₂e
        cases i with
        | zero => exact hsnaple
        | succ i =>
          exact ih (day + 1) r₁.newState r₂.newState rest₁ rest₂
            (max 0 (d₁ - c * m₁)) (max 0 (d₂ - c * m₂)) hn₁ hn₂ hndle
            hrec₁ hrec₂ i (by simpa using hi1) (by simpa using hi2)

/-- Claim C7 (amended): with a stub front-dynamics predictor returning a
fixed non-negative delta (and arbitrary deterministic stubs for the other
two roles), running the loop from the same anchor copy under `aggressive`
(modifier 1.5) and `conservative` (modifier 0.5) yields, for every day k
up to the shorter run's length, an aggressive-run distance ≤ the
conservative-run distance; both runs are functions of the shared anchor
only, so neither observes the other's mutations. -/
theorem scenario_distance_comparison {p : Predictors} {c : ℚ}
    {anchor : FeatureVector} {days : ℕ} {h₁ h₂ : List DailySnapshot} {d0 : ℚ}
    (hstub : ∀ l, p.predictA l = c) (hc : 0 ≤ c)
    (hd0 : anchor.get? "dist_to_front_m" = some d0)
    (hrun₁ : simLoop p (scenarioModifier "aggressive") anchor 1 days = .ok h₁)
    (hrun₂ : simLoop p (scenarioModifier "conservative") anchor 1 days = .ok h₂) :
    ∀ i (hi1 : i < h₁.length) (hi2 : i < h₂.length),
      (h₁.get ⟨i, hi1⟩).dist_to_front ≤ (h₂.get ⟨i, hi2⟩).dist_to_front := by
  have hm : scenarioModifier "conservative" ≤ scenarioModifier "aggressive" := by
    have e1 : scenarioModifier "conservative" = 1 / 2 := by simp [scenarioModifier]
    have e2 : scenarioModifier "aggressive" = 3 / 2 := by simp [scenarioModifier]
    rw [e1, e2]
    norm_num
  exact simLoop_dist_compare hstub hc hm days 1 anchor anchor h₁ h₂ d0 d0
    hd0 hd0 le_rfl hrun₁ hrun₂

/-- Claim C7 counterexample: with a stub front-dynamics predictor
returning −10 (front retreating), the aggressive run's day-1 distance
(1015) exceeds the conservative run's (1005), refuting the unconditional
day-by-day comparison. -/
theorem scenario_comparison_counterexample :
    (run_simulation (stubPred (-10) 0 0) baseDf "bakhmut" 1 "aggressive").map
        (fun h => h.map (fun l => l.map (·.dist_to_front))) = .ok (some [1015]) ∧
    (run_simulation (stubPred (-10) 0 0) baseDf "bakhmut" 1 "conservative").map
        (fun h => h.map (fun l => l.map (·.dist_to_front))) = .ok (some [1005]) ∧
    ¬ ((1015 : ℚ) ≤ 1005) := by
  have hday₁ := simulateDay_stub (-10) 0 0 (3 / 2) 1000 10 20 0 (1 / 4) 1
  have hday₂ := simulateDay_stub (-10) 0 0 (1 / 2) 1000 10 20 0 (1 / 4) 1
  refine ⟨?_, ?_, by norm_num⟩
  · simp [run_simulation, get_city_state, baseDf, scenarioModifier, latestFrom,
      FeatureVector.item, anchor0, FeatureVector.get?, simLoop, Except.map]
    norm_num [hday₁, pyRound, roundHalfEven, Except.map]
  · simp [run_simulation, get_city_state, baseDf, scenarioModifier, latestFrom,
      FeatureVector.item, anchor0, FeatureVector.get?, simLoop, Except.map]
    norm_num [hday₂, pyRound, roundHalfEven, Except.map]

theorem aggressiveRun_eval :
    simLoop (stubPred 100 2 (3 / 10)) (scenarioModifier "aggressive") anchor0 1 1
      = .ok [{ day := 1
               dist_to_front := 850
               delta_real := 150
               encirclement := 1
               prob_capture := 3 / 10
               status := .free }] := by
  have hmod : scenarioModifier "aggressive" = 3 / 2 := by simp [scenarioModifier]
  have hday := simulateDay_stub 100 2 (3 / 10) (3 / 2) 1000 10 20 0 (1 / 4) 1
  rw [hmod, anchor0]
  simp only [simLoop, hday]
  norm_num [pyRound, roundHalfEven]

theorem conservativeRun_eval :
    simLoop (stubPred 100 2 (3 / 10)) (scenarioModifier "conservative") anchor0 1 1
      = .ok [{ day := 1
               dist_to_front := 950
               delta_real := 50
               encirclement := 1
               prob_capture := 3 / 10
               status := .free }] := by
  have hmod : scenarioModifier "conservative" = 1 / 2 := by simp [scenarioModifier]
  have hday := simulateDay_stub 100 2 (3 / 10) (1 / 2) 1000 10 20 0 (1 / 4) 1
  rw [hmod, anchor0]
  simp only [simLoop, hday]
  norm_num [pyRound, roundHalfEven]

/-- Witness for claim C7's theorem on one-day aggressive and conservative
stub runs from the same anchor. -/
theorem scenario_distance_comparison_witness :
    (([{ day := 1
         dist_to_front := 850
         delta_real := 150
         encirclement := 1
         prob_capture := 3 / 10
         status := Status.free }] : List DailySnapshot).get ⟨0, by decide⟩).dist_to_front
      ≤ (([{ day := 1
             dist_to_front := 950
             delta_real := 50
             encirclement := 1
             prob_capture := 3 / 10
             status := Status.free }] : List DailySnapshot).get ⟨0, by decide⟩).dist_to_front :=
  scenario_distance_comparison (fun _ => rfl) (by norm_num) anchor0_dist
    aggressiveRun_eval conservativeRun_eval 0 (by decide) (by decide)

end WarSim
